import Mathlib

/-
  Verification development for the sector-geometry engine in
  `src/shape/Sector.js`: angle normalization (`getDeltaAngle`), the
  tangent-circle solver (`getTangentCircle`), the sharp-edge path builder
  (`getSectorPath`), the rounded-edge path builder (`getSectorWithCorner`)
  and the rendering facade (`Sector.render`).

  Numbers are embedded as rationals.  The platform trigonometric functions
  (`Math.sin`, `Math.cos`, `Math.asin`) together with the degree/radian
  conversion constant `RADIAN` are external to the engine; they are
  abstracted as an oracle record `MathOps` whose fields work directly in
  degrees: `cosDeg a` stands for `Math.cos(a * RADIAN)`, `sinDeg a` for
  `Math.sin(a * RADIAN)` and `asinDeg q` for `Math.asin(q) / RADIAN`.
  Every definition is parametric in the oracle, so theorems quantify over
  all possible trigonometric behaviours unless they pin down particular
  values by hypothesis.

  The emitted SVG path string is embedded as a list of path commands
  (`PathCmd`), one constructor per command kind appearing in the source
  (`M`, absolute `A`, relative `a`, `L`, `Z`), carrying exactly the numeric
  fields the source interpolates into the string.
-/

set_option autoImplicit false

/-- A Cartesian point, the JS object `{x, y}` returned by `polarToCartesian`. -/
structure Pt where
  x : ℚ
  y : ℚ
deriving DecidableEq, Repr

/-- Oracle for the platform trigonometry (`Math.sin` / `Math.cos` /
`Math.asin`), pre-composed with the degree/radian conversions that the
source performs at every call site, so all three fields speak degrees. -/
structure MathOps where
  sinDeg : ℚ → ℚ
  cosDeg : ℚ → ℚ
  asinDeg : ℚ → ℚ

/-- Modelled from the spec: the Numeric Utility's sign function
(`mathSign` of `src/util/DataUtils`, not under `src/`): "a sign function
returning -1, 0, or 1", "returns 0 only when the difference is exactly 0". -/
def mathSign (x : ℚ) : ℚ :=
  if x < 0 then -1 else if 0 < x then 1 else 0

/-- Modelled from the spec: the Coordinate Utility (`polarToCartesian` of
`src/util/PolarUtils`, not under `src/`): "converts polar coordinates
(center, radius, angle-in-degrees) to Cartesian points".  The orientation
is fixed by the spec's sharp-edge round trip, which sends angle 0 at
radius 100 to (100, 0) and angle 90 to (0, 100). -/
def polarToCartesian (M : MathOps) (cx cy radius angle : ℚ) : Pt :=
  ⟨cx + radius * M.cosDeg angle, cy + radius * M.sinDeg angle⟩

/-- A corner-radius value as accepted by the facade: an absolute length or
a percentage of the annulus thickness (spec §9's tagged union). -/
inductive CornerRadiusSpec where
  | absolute (v : ℚ)
  | percent (v : ℚ)
deriving DecidableEq, Repr

/-- Modelled from the spec: the Numeric Utility's percent resolver
(`getPercentValue` of `src/util/DataUtils`, not under `src/`): "resolves a
corner-radius value that may be absolute or percentage-of-available-thickness
into an absolute length, clamped to a base and bound" — when `validate` is
set, a value exceeding `totalValue` is clamped down to `totalValue`. -/
def getPercentValue (value : CornerRadiusSpec) (totalValue defaultValue : ℚ)
    (validate : Bool) : ℚ :=
  let v := match value with
    | CornerRadiusSpec.absolute a => a
    | CornerRadiusSpec.percent pct => totalValue * pct / 100
  if validate = true ∧ v > totalValue then totalValue else v

/-- Definition `getDeltaAngle` (Sector.js lines 13-18): signed delta angle with
magnitude capped at 359.999 degrees. -/
def getDeltaAngle (startAngle endAngle : ℚ) : ℚ :=
  let sign := mathSign (endAngle - startAngle)
  let deltaAngle := min |endAngle - startAngle| (359999/1000)
  sign * deltaAngle

/-- The argument record of `getTangentCircle` (Sector.js lines 20-21).
In the source the outer-edge call sites omit `isExternal` (undefined,
hence falsy); here they pass `false` explicitly. -/
structure TangentInput where
  cx : ℚ
  cy : ℚ
  radius : ℚ
  angle : ℚ
  sign : ℚ
  isExternal : Bool
  cornerRadius : ℚ
deriving DecidableEq, Repr

/-- The record returned by `getTangentCircle` (Sector.js line 32). -/
structure TangentResult where
  center : Pt
  circleTangency : Pt
  lineTangency : Pt
  theta : ℚ
deriving DecidableEq, Repr

/-- The argument handed to the inverse sine inside `getTangentCircle`
(Sector.js lines 22-23): `cornerRadius / centerRadius` with
`centerRadius = cornerRadius * (isExternal ? 1 : -1) + radius`. -/
def asinArg (i : TangentInput) : ℚ :=
  i.cornerRadius / (i.cornerRadius * (if i.isExternal then 1 else -1) + i.radius)

/-- Definition `getTangentCircle` (Sector.js lines 20-33). -/
def getTangentCircle (M : MathOps) (i : TangentInput) : TangentResult :=
  let centerRadius := i.cornerRadius * (if i.isExternal then 1 else -1) + i.radius
  let theta := M.asinDeg (asinArg i)
  let centerAngle := i.angle + i.sign * theta
  let center := polarToCartesian M i.cx i.cy centerRadius centerAngle
  let circleTangency := polarToCartesian M i.cx i.cy i.radius centerAngle
  let lineTangency :=
    polarToCartesian M i.cx i.cy (centerRadius * M.cosDeg theta) i.angle
  ⟨center, circleTangency, lineTangency, theta⟩

/-- One SVG-style path command, as interpolated into the output string by
the source: move (`M`), absolute arc (`A rx,ry,rot,largeArc,sweep,x,y`),
relative arc (`a`, used only by the full-circle fallback), line (`L`) and
close (`Z`). -/
inductive PathCmd where
  | move (p : Pt)
  | arc (rx ry rot : ℚ) (largeArc sweep : Bool) (p : Pt)
  | arcRel (rx ry rot : ℚ) (largeArc sweep : Bool) (dx dy : ℚ)
  | line (p : Pt)
  | close
deriving DecidableEq, Repr

/-- Definition `getSectorPath` (Sector.js lines 44-92): the sharp-edge path builder. -/
def getSectorPath (M : MathOps)
    (cx cy innerRadius outerRadius startAngle endAngle : ℚ) : List PathCmd :=
  let angle := getDeltaAngle startAngle endAngle
  let tempEndAngle := startAngle + angle
  let outerStartPoint := polarToCartesian M cx cy outerRadius startAngle
  let outerEndPoint := polarToCartesian M cx cy outerRadius tempEndAngle
  let path := [PathCmd.move outerStartPoint,
    PathCmd.arc outerRadius outerRadius 0
      (decide (|angle| > 180)) (decide (startAngle > tempEndAngle)) outerEndPoint]
  if innerRadius > 0 then
    let innerStartPoint := polarToCartesian M cx cy innerRadius startAngle
    let innerEndPoint := polarToCartesian M cx cy innerRadius tempEndAngle
    path ++ [PathCmd.line innerEndPoint,
      PathCmd.arc innerRadius innerRadius 0
        (decide (|angle| > 180)) (decide (startAngle ≤ tempEndAngle)) innerStartPoint,
      PathCmd.close]
  else
    path ++ [PathCmd.line ⟨cx, cy⟩, PathCmd.close]

/-- The tangent solve at the outer radius and `startAngle` with `sign`
(Sector.js lines 106-109). -/
def outerStartTangent (M : MathOps)
    (cx cy outerRadius cornerRadius startAngle endAngle : ℚ) : TangentResult :=
  getTangentCircle M
    ⟨cx, cy, outerRadius, startAngle, mathSign (endAngle - startAngle), false,
      cornerRadius⟩

/-- The tangent solve at the outer radius and `endAngle` with `-sign`
(Sector.js lines 114-117). -/
def outerEndTangent (M : MathOps)
    (cx cy outerRadius cornerRadius startAngle endAngle : ℚ) : TangentResult :=
  getTangentCircle M
    ⟨cx, cy, outerRadius, endAngle, -(mathSign (endAngle - startAngle)), false,
      cornerRadius⟩

/-- Definition `outerArcAngle` (Sector.js line 119): the raw angular span minus the
angular offsets consumed by the two outer rounding circles. -/
def outerArcAngle (M : MathOps)
    (cx cy outerRadius cornerRadius startAngle endAngle : ℚ) : ℚ :=
  |startAngle - endAngle|
    - (outerStartTangent M cx cy outerRadius cornerRadius startAngle endAngle).theta
    - (outerEndTangent M cx cy outerRadius cornerRadius startAngle endAngle).theta

/-- The tangent solve at the inner radius and `startAngle` with `sign` and
`isExternal` (Sector.js lines 149-152). -/
def innerStartTangent (M : MathOps)
    (cx cy innerRadius cornerRadius startAngle endAngle : ℚ) : TangentResult :=
  getTangentCircle M
    ⟨cx, cy, innerRadius, startAngle, mathSign (endAngle - startAngle), true,
      cornerRadius⟩

/-- The tangent solve at the inner radius and `endAngle` with `-sign` and
`isExternal` (Sector.js lines 157-160). -/
def innerEndTangent (M : MathOps)
    (cx cy innerRadius cornerRadius startAngle endAngle : ℚ) : TangentResult :=
  getTangentCircle M
    ⟨cx, cy, innerRadius, endAngle, -(mathSign (endAngle - startAngle)), true,
      cornerRadius⟩

/-- Definition `innerArcAngle` (Sector.js line 162). -/
def innerArcAngle (M : MathOps)
    (cx cy innerRadius cornerRadius startAngle endAngle : ℚ) : ℚ :=
  |startAngle - endAngle|
    - (innerStartTangent M cx cy innerRadius cornerRadius startAngle endAngle).theta
    - (innerEndTangent M cx cy innerRadius cornerRadius startAngle endAngle).theta

/-- Definition `getSectorWithCorner` (Sector.js lines 95-181): the rounded-edge path
builder. -/
def getSectorWithCorner (M : MathOps)
    (cx cy innerRadius outerRadius cornerRadius : ℚ) (forceCornerRadius : Bool)
    (startAngle endAngle : ℚ) : List PathCmd :=
  let sign := mathSign (endAngle - startAngle)
  let so := outerStartTangent M cx cy outerRadius cornerRadius startAngle endAngle
  let eo := outerEndTangent M cx cy outerRadius cornerRadius startAngle endAngle
  let oa := outerArcAngle M cx cy outerRadius cornerRadius startAngle endAngle
  if oa < 0 then
    if forceCornerRadius then
      [PathCmd.move so.lineTangency,
        PathCmd.arcRel cornerRadius cornerRadius 0 false true (cornerRadius * 2) 0,
        PathCmd.arcRel cornerRadius cornerRadius 0 false true (-(cornerRadius * 2)) 0]
    else
      getSectorPath M cx cy innerRadius outerRadius startAngle endAngle
  else
    let path := [PathCmd.move so.lineTangency,
      PathCmd.arc cornerRadius cornerRadius 0 false (decide (sign < 0)) so.circleTangency,
      PathCmd.arc outerRadius outerRadius 0
        (decide (oa > 180)) (decide (sign < 0)) eo.circleTangency,
      PathCmd.arc cornerRadius cornerRadius 0 false (decide (sign < 0)) eo.lineTangency]
    if innerRadius > 0 then
      let si := innerStartTangent M cx cy innerRadius cornerRadius startAngle endAngle
      let ei := innerEndTangent M cx cy innerRadius cornerRadius startAngle endAngle
      let ia := innerArcAngle M cx cy innerRadius cornerRadius startAngle endAngle
      if ia < 0 then
        path ++ [PathCmd.line ⟨cx, cy⟩, PathCmd.close]
      else
        path ++ [PathCmd.line ei.lineTangency,
          PathCmd.arc cornerRadius cornerRadius 0 false (decide (sign < 0)) ei.circleTangency,
          PathCmd.arc innerRadius innerRadius 0
            (decide (ia > 180)) (decide (sign > 0)) si.circleTangency,
          PathCmd.arc cornerRadius cornerRadius 0 false (decide (sign < 0)) si.lineTangency,
          PathCmd.close]
    else
      path ++ [PathCmd.line ⟨cx, cy⟩, PathCmd.close]

/-- The geometry-relevant props of the `Sector` component (Sector.js lines
210-212), with `cornerRadius` kept in its number-or-percentage form. -/
structure SectorProps where
  cx : ℚ
  cy : ℚ
  innerRadius : ℚ
  outerRadius : ℚ
  cornerRadius : CornerRadiusSpec
  forceCornerRadius : Bool
  startAngle : ℚ
  endAngle : ℚ
deriving DecidableEq, Repr

namespace Sector

/-- Definition `Sector.render` (Sector.js lines 210-240) restricted to its geometric
content: `none` embeds the `return null` branch ("no geometry"); `some`
carries the path handed to the `<path d=...>` element. -/
def render (M : MathOps) (p : SectorProps) : Option (List PathCmd) :=
  if p.outerRadius < p.innerRadius ∨ p.startAngle = p.endAngle then none
  else
    let deltaRadius := p.outerRadius - p.innerRadius
    let cr := getPercentValue p.cornerRadius deltaRadius 0 true
    if cr > 0 ∧ |p.startAngle - p.endAngle| < 360 then
      some (getSectorWithCorner M p.cx p.cy p.innerRadius p.outerRadius
        (min cr (deltaRadius / 2)) p.forceCornerRadius p.startAngle p.endAngle)
    else
      some (getSectorPath M p.cx p.cy p.innerRadius p.outerRadius
        p.startAngle p.endAngle)

end Sector

/-- The initial move-to point of a command list, when it starts with one. -/
def contourStart (cmds : List PathCmd) : Option Pt :=
  match cmds with
  | PathCmd.move p :: _ => some p
  | _ => none

/-- The current point after executing a command list: absolute commands set
it, relative arcs displace it. -/
def finalPoint (cmds : List PathCmd) : Option Pt :=
  cmds.foldl
    (fun cur c =>
      match c with
      | PathCmd.move p => some p
      | PathCmd.arc _ _ _ _ _ p => some p
      | PathCmd.arcRel _ _ _ _ _ dx dy => cur.map fun q => ⟨q.x + dx, q.y + dy⟩
      | PathCmd.line p => some p
      | PathCmd.close => cur)
    none

/-- Whether `p` lies on the circle of radius `r` centered at `c`, as a
decidable Boolean test. -/
def onCircleB (c : Pt) (r : ℚ) (p : Pt) : Bool :=
  decide ((p.x - c.x) ^ 2 + (p.y - c.y) ^ 2 = r ^ 2)

/-- A degenerate but admissible trig oracle: every sine is 0, every cosine
is 1, every inverse sine is 0 degrees.  Used to instantiate theorems on
concrete inputs. -/
def trigFlat : MathOps :=
  ⟨fun _ => 0, fun _ => 1, fun _ => 0⟩

/-- A trig oracle agreeing with real trigonometry at 0 and 90 degrees and
returning 6 degrees for every inverse sine. -/
def trigQuadrant : MathOps :=
  ⟨fun a => if a = 0 then 0 else if a = 90 then 1 else 0,
   fun a => if a = 0 then 1 else if a = 90 then 0 else 1,
   fun _ => 6⟩

/-- Claim C1: for every input record, the facade emits the "no geometry"
sentinel (renders nothing) if and only if `outerRadius < innerRadius` or
`startAngle == endAngle`; for every other input it emits a path. -/
theorem render_no_geometry_iff (M : MathOps) (p : SectorProps) :
    Sector.render M p = none ↔
      (p.outerRadius < p.innerRadius ∨ p.startAngle = p.endAngle) := by
  by_cases h : p.outerRadius < p.innerRadius ∨ p.startAngle = p.endAngle
  · simp [Sector.render, h]
  · simp only [Sector.render, if_neg h]
    constructor
    · intro hnone
      exact absurd hnone (by split <;> simp)
    · intro hg
      exact absurd hg h

/-- Claim C2: `getDeltaAngle` returns
`sign(endAngle - startAngle) * min(|endAngle - startAngle|, 359.999)` with a
sign function that is 0 exactly on 0; consequently `startAngle=0,
endAngle=360` renders a full-sector path while `startAngle=0, endAngle=0`
yields the no-geometry sentinel, so the two outcomes differ. -/
theorem deltaAngle_formula_full_turn_guard :
    (∀ s e : ℚ, getDeltaAngle s e = mathSign (e - s) * min |e - s| (359999/1000))
    ∧ (∀ x : ℚ, mathSign x = 0 ↔ x = 0)
    ∧ (∀ M : MathOps,
        Sector.render M ⟨0, 0, 0, 100, CornerRadiusSpec.absolute 0, false, 0, 360⟩
            = some (getSectorPath M 0 0 0 100 0 360)
          ∧ Sector.render M ⟨0, 0, 0, 100, CornerRadiusSpec.absolute 0, false, 0, 0⟩
            = none
          ∧ (Sector.render M
              ⟨0, 0, 0, 100, CornerRadiusSpec.absolute 0, false, 0, 360⟩).isSome = true) := by
  refine ⟨fun s e => rfl, fun x => ?_, fun M => ⟨?_, ?_, ?_⟩⟩
  · constructor
    · intro h
      by_contra hx
      rcases lt_or_gt_of_ne hx with h1 | h1
      · simp [mathSign, h1] at h
      · simp [mathSign, h1, lt_asymm h1] at h
    · intro h
      simp [mathSign, h]
  · norm_num [Sector.render, getPercentValue]
  · norm_num [Sector.render]
  · norm_num [Sector.render, getPercentValue]

/-- Claim C3: the sharp-edge builder emits a move to the outer start point,
an outer arc with `largeArcFlag = 1` iff `|deltaAngle| > 180` and
`sweepFlag = 1` iff `startAngle > tempEndAngle`, then — when
`innerRadius > 0` — a line to the inner end point and an inner arc whose
sweep flag is `1` iff `startAngle <= tempEndAngle`, then a close; when
`innerRadius == 0`, a line to the center and a close.  For center (0,0),
`innerRadius=0`, `outerRadius=100`, `startAngle=0`, `endAngle=90` the
output is `M 100,0 A 100,100,0,0,0,0,100 L 0,0 Z`. -/
theorem getSectorPath_spec (M : MathOps)
    (hc0 : M.cosDeg 0 = 1) (hs0 : M.sinDeg 0 = 0)
    (hc90 : M.cosDeg 90 = 0) (hs90 : M.sinDeg 90 = 1) :
    (∀ cx cy innerRadius outerRadius startAngle endAngle : ℚ,
      getSectorPath M cx cy innerRadius outerRadius startAngle endAngle
        = (let angle := mathSign (endAngle - startAngle)
              * min |endAngle - startAngle| (359999/1000)
           let tempEndAngle := startAngle + angle
           [PathCmd.move (polarToCartesian M cx cy outerRadius startAngle),
             PathCmd.arc outerRadius outerRadius 0
               (decide (|angle| > 180)) (decide (startAngle > tempEndAngle))
               (polarToCartesian M cx cy outerRadius tempEndAngle)]
             ++ (if innerRadius > 0 then
                  [PathCmd.line (polarToCartesian M cx cy innerRadius tempEndAngle),
                    PathCmd.arc innerRadius innerRadius 0
                      (decide (|angle| > 180)) (decide (startAngle ≤ tempEndAngle))
                      (polarToCartesian M cx cy innerRadius startAngle),
                    PathCmd.close]
                 else [PathCmd.line ⟨cx, cy⟩, PathCmd.close])))
    ∧ getSectorPath M 0 0 0 100 0 90
        = [PathCmd.move ⟨100, 0⟩,
           PathCmd.arc 100 100 0 false false ⟨0, 100⟩,
           PathCmd.line ⟨0, 0⟩, PathCmd.close] := by
  constructor
  · intro cx cy innerRadius outerRadius startAngle endAngle
    simp only [getSectorPath, getDeltaAngle]
    split_ifs <;> rfl
  · norm_num [getSectorPath, getDeltaAngle, mathSign, polarToCartesian,
      hc0, hs0, hc90, hs90]

/-- Witness for claim C3 at the oracle `trigQuadrant`, which takes the
standard trigonometric values at 0 and 90 degrees. -/
theorem getSectorPath_spec_witness :
    (trigQuadrant.cosDeg 0 = 1 ∧ trigQuadrant.sinDeg 0 = 0
      ∧ trigQuadrant.cosDeg 90 = 0 ∧ trigQuadrant.sinDeg 90 = 1)
    ∧ getSectorPath trigQuadrant 0 0 0 100 0 90
        = [PathCmd.move ⟨100, 0⟩,
           PathCmd.arc 100 100 0 false false ⟨0, 100⟩,
           PathCmd.line ⟨0, 0⟩, PathCmd.close] :=
  ⟨⟨by norm_num [trigQuadrant], by norm_num [trigQuadrant],
    by norm_num [trigQuadrant], by norm_num [trigQuadrant]⟩,
   (getSectorPath_spec trigQuadrant (by norm_num [trigQuadrant])
      (by norm_num [trigQuadrant]) (by norm_num [trigQuadrant])
      (by norm_num [trigQuadrant])).2⟩

/-- Claim C5: the tangent-circle solver computes
`centerRadius = radius + cornerRadius * (isExternal ? 1 : -1)`,
`theta = asin(cornerRadius / centerRadius)` in degrees, the circle-tangency
point at polar `(radius, angle + sign * theta)`, and the line-tangency
point at polar `(centerRadius * cos(theta), angle)` (the rounding circle's
own center sitting at polar `(centerRadius, angle + sign * theta)`). -/
theorem getTangentCircle_spec (M : MathOps) (i : TangentInput) :
    getTangentCircle M i
      = ⟨polarToCartesian M i.cx i.cy
            (i.radius + i.cornerRadius * (if i.isExternal then 1 else -1))
            (i.angle + i.sign
              * M.asinDeg (i.cornerRadius /
                  (i.radius + i.cornerRadius * (if i.isExternal then 1 else -1)))),
          polarToCartesian M i.cx i.cy i.radius
            (i.angle + i.sign
              * M.asinDeg (i.cornerRadius /
                  (i.radius + i.cornerRadius * (if i.isExternal then 1 else -1)))),
          polarToCartesian M i.cx i.cy
            ((i.radius + i.cornerRadius * (if i.isExternal then 1 else -1))
              * M.cosDeg (M.asinDeg (i.cornerRadius /
                  (i.radius + i.cornerRadius * (if i.isExternal then 1 else -1)))))
            i.angle,
          M.asinDeg (i.cornerRadius /
            (i.radius + i.cornerRadius * (if i.isExternal then 1 else -1)))⟩ := by
  have hc : i.cornerRadius * (if i.isExternal then (1:ℚ) else -1) + i.radius
      = i.radius + i.cornerRadius * (if i.isExternal then 1 else -1) := by ring
  simp only [getTangentCircle, asinArg, hc]

/-- Claim C4 (amended): whenever `outerArcAngle < 0`, if `forceCornerRadius`
is set the output is a closed full circle of radius `cornerRadius` passing
through the start line-tangency point — its center lies offset by
`(cornerRadius, 0)` from that point — drawn as two opposing relative
half-circle arcs; otherwise the output equals the sharp-edge builder's
output on the same (unrounded) inputs. -/
theorem getSectorWithCorner_degenerate (M : MathOps)
    (cx cy innerRadius outerRadius cornerRadius startAngle endAngle : ℚ)
    (h : outerArcAngle M cx cy outerRadius cornerRadius startAngle endAngle < 0) :
    (getSectorWithCorner M cx cy innerRadius outerRadius cornerRadius true
        startAngle endAngle
        = [PathCmd.move (outerStartTangent M cx cy outerRadius cornerRadius
              startAngle endAngle).lineTangency,
           PathCmd.arcRel cornerRadius cornerRadius 0 false true (cornerRadius * 2) 0,
           PathCmd.arcRel cornerRadius cornerRadius 0 false true (-(cornerRadius * 2)) 0]
      ∧ onCircleB
          ⟨(outerStartTangent M cx cy outerRadius cornerRadius startAngle endAngle).lineTangency.x
              + cornerRadius,
            (outerStartTangent M cx cy outerRadius cornerRadius startAngle endAngle).lineTangency.y⟩
          cornerRadius
          (outerStartTangent M cx cy outerRadius cornerRadius startAngle endAngle).lineTangency
          = true
      ∧ onCircleB
          ⟨(outerStartTangent M cx cy outerRadius cornerRadius startAngle endAngle).lineTangency.x
              + cornerRadius,
            (outerStartTangent M cx cy outerRadius cornerRadius startAngle endAngle).lineTangency.y⟩
          cornerRadius
          ⟨(outerStartTangent M cx cy outerRadius cornerRadius startAngle endAngle).lineTangency.x
              + cornerRadius * 2,
            (outerStartTangent M cx cy outerRadius cornerRadius startAngle endAngle).lineTangency.y⟩
          = true)
    ∧ getSectorWithCorner M cx cy innerRadius outerRadius cornerRadius false
        startAngle endAngle
        = getSectorPath M cx cy innerRadius outerRadius startAngle endAngle := by
  refine ⟨⟨?_, ?_, ?_⟩, ?_⟩
  · simp only [getSectorWithCorner, if_pos h]
    simp
  · simp only [onCircleB, decide_eq_true_eq]
    ring
  · simp only [onCircleB, decide_eq_true_eq]
    ring
  · simp only [getSectorWithCorner, if_pos h]
    simp

/-- Witness for claim C4: at the oracle `trigQuadrant` with a 1-degree span
and corner radius 10, `outerArcAngle` is negative and the unforced call
degrades to the sharp-edge builder. -/
theorem getSectorWithCorner_degenerate_witness :
    outerArcAngle trigQuadrant 0 0 100 10 0 1 < 0
    ∧ getSectorWithCorner trigQuadrant 0 0 0 100 10 false 0 1
        = getSectorPath trigQuadrant 0 0 0 100 0 1 :=
  ⟨by norm_num [outerArcAngle, outerStartTangent, outerEndTangent, getTangentCircle,
      asinArg, trigQuadrant, mathSign, polarToCartesian],
   (getSectorWithCorner_degenerate trigQuadrant 0 0 0 100 10 0 1
      (by norm_num [outerArcAngle, outerStartTangent, outerEndTangent, getTangentCircle,
        asinArg, trigQuadrant, mathSign, polarToCartesian])).2⟩

/-- Counterexample to claim C4 as stated: at center (0,0), outer radius
100, corner radius 10, angles 0 to 1 degree, oracle `trigQuadrant` (every
inverse sine 6 degrees, so `outerArcAngle = 1 - 6 - 6 < 0`) with
`forceCornerRadius`, the emitted path starts at the start line-tangency
point (90, 0) itself and is the circle through (90,0) and (110,0); a
circle of radius 10 centered at (90, 0) does not pass through (90, 0), so
the drawn circle is not centered at the start line-tangency point. -/
theorem dot_circle_not_centered_at_lineTangency :
    outerArcAngle trigQuadrant 0 0 100 10 0 1 < 0
    ∧ (outerStartTangent trigQuadrant 0 0 100 10 0 1).lineTangency = ⟨90, 0⟩
    ∧ getSectorWithCorner trigQuadrant 0 0 0 100 10 true 0 1
        = [PathCmd.move ⟨90, 0⟩,
           PathCmd.arcRel 10 10 0 false true 20 0,
           PathCmd.arcRel 10 10 0 false true (-20) 0]
    ∧ onCircleB ⟨90, 0⟩ 10 ⟨90, 0⟩ = false := by
  norm_num [outerArcAngle, outerStartTangent, outerEndTangent, getTangentCircle,
    asinArg, trigQuadrant, mathSign, polarToCartesian, getSectorWithCorner, onCircleB]

/-- Claim C6: in the rounded-edge builder with `innerRadius > 0` and
`outerArcAngle >= 0`, if `innerArcAngle < 0` the path is closed by a
straight line to the center instead of inner rounding; otherwise the inner
boundary is three arcs whose corner-arc sweep flags are `1` iff `sign < 0`
and whose main inner-arc sweep flag is `1` iff `sign > 0` (the outer main
arc's being `1` iff `sign < 0`), followed by a close. -/
theorem getSectorWithCorner_inner_edge (M : MathOps)
    (cx cy innerRadius outerRadius cornerRadius : ℚ) (forceCornerRadius : Bool)
    (startAngle endAngle : ℚ)
    (hpos : innerRadius > 0)
    (hoa : 0 ≤ outerArcAngle M cx cy outerRadius cornerRadius startAngle endAngle) :
    getSectorWithCorner M cx cy innerRadius outerRadius cornerRadius
        forceCornerRadius startAngle endAngle
      = (let sign := mathSign (endAngle - startAngle)
         let so := outerStartTangent M cx cy outerRadius cornerRadius startAngle endAngle
         let eo := outerEndTangent M cx cy outerRadius cornerRadius startAngle endAngle
         let oa := outerArcAngle M cx cy outerRadius cornerRadius startAngle endAngle
         let si := innerStartTangent M cx cy innerRadius cornerRadius startAngle endAngle
         let ei := innerEndTangent M cx cy innerRadius cornerRadius startAngle endAngle
         let ia := innerArcAngle M cx cy innerRadius cornerRadius startAngle endAngle
         [PathCmd.move so.lineTangency,
          PathCmd.arc cornerRadius cornerRadius 0 false (decide (sign < 0)) so.circleTangency,
          PathCmd.arc outerRadius outerRadius 0 (decide (oa > 180)) (decide (sign < 0))
            eo.circleTangency,
          PathCmd.arc cornerRadius cornerRadius 0 false (decide (sign < 0)) eo.lineTangency]
         ++ (if ia < 0 then
              [PathCmd.line ⟨cx, cy⟩, PathCmd.close]
             else
              [PathCmd.line ei.lineTangency,
               PathCmd.arc cornerRadius cornerRadius 0 false (decide (sign < 0)) ei.circleTangency,
               PathCmd.arc innerRadius innerRadius 0 (decide (ia > 180)) (decide (sign > 0))
                 si.circleTangency,
               PathCmd.arc cornerRadius cornerRadius 0 false (decide (sign < 0)) si.lineTangency,
               PathCmd.close])) := by
  simp only [getSectorWithCorner, if_neg (not_lt.mpr hoa), if_pos hpos]
  split_ifs <;> rfl

/-- Witness for claim C6 at the oracle `trigFlat`, inner radius 50, outer
radius 100, corner radius 10, angles 0 to 90. -/
theorem getSectorWithCorner_inner_edge_witness :
    (50:ℚ) > 0
    ∧ 0 ≤ outerArcAngle trigFlat 0 0 100 10 0 90
    ∧ getSectorWithCorner trigFlat 0 0 50 100 10 false 0 90
        = [PathCmd.move ⟨90, 0⟩,
           PathCmd.arc 10 10 0 false false ⟨100, 0⟩,
           PathCmd.arc 100 100 0 false false ⟨100, 0⟩,
           PathCmd.arc 10 10 0 false false ⟨90, 0⟩,
           PathCmd.line ⟨60, 0⟩,
           PathCmd.arc 10 10 0 false false ⟨50, 0⟩,
           PathCmd.arc 50 50 0 false true ⟨50, 0⟩,
           PathCmd.arc 10 10 0 false false ⟨60, 0⟩,
           PathCmd.close] :=
  ⟨by norm_num,
   by norm_num [outerArcAngle, outerStartTangent, outerEndTangent, getTangentCircle,
      asinArg, trigFlat, mathSign, polarToCartesian],
   by rw [getSectorWithCorner_inner_edge trigFlat 0 0 50 100 10 false 0 90
        (by norm_num)
        (by norm_num [outerArcAngle, outerStartTangent, outerEndTangent, getTangentCircle,
          asinArg, trigFlat, mathSign, polarToCartesian])]
      norm_num [outerArcAngle, innerArcAngle, outerStartTangent, outerEndTangent,
        innerStartTangent, innerEndTangent, getTangentCircle, asinArg, trigFlat,
        mathSign, polarToCartesian]⟩

/-- Claim C7: the corner radius actually passed into the rounded-edge
builder is the resolved value clamped to `(outerRadius - innerRadius) / 2`,
so it never exceeds that bound; and requesting `cornerRadius=1000` with
`innerRadius=0`, `outerRadius=100` produces output identical to requesting
`cornerRadius=50`, whatever the angles, the force flag and the oracle. -/
theorem cornerRadius_clamped (M : MathOps) (p : SectorProps)
    (hg : ¬(p.outerRadius < p.innerRadius ∨ p.startAngle = p.endAngle))
    (hd : getPercentValue p.cornerRadius (p.outerRadius - p.innerRadius) 0 true > 0
          ∧ |p.startAngle - p.endAngle| < 360) :
    (Sector.render M p
        = some (getSectorWithCorner M p.cx p.cy p.innerRadius p.outerRadius
            (min (getPercentValue p.cornerRadius (p.outerRadius - p.innerRadius) 0 true)
              ((p.outerRadius - p.innerRadius) / 2))
            p.forceCornerRadius p.startAngle p.endAngle)
      ∧ min (getPercentValue p.cornerRadius (p.outerRadius - p.innerRadius) 0 true)
          ((p.outerRadius - p.innerRadius) / 2)
          ≤ (p.outerRadius - p.innerRadius) / 2)
    ∧ (∀ (N : MathOps) (cx cy s e : ℚ) (force : Bool),
        Sector.render N ⟨cx, cy, 0, 100, CornerRadiusSpec.absolute 1000, force, s, e⟩
          = Sector.render N ⟨cx, cy, 0, 100, CornerRadiusSpec.absolute 50, force, s, e⟩) := by
  constructor
  · constructor
    · simp only [Sector.render, if_neg hg, if_pos hd]
    · exact min_le_right _ _
  · intro N cx cy s e force
    simp only [Sector.render]
    norm_num [getPercentValue]

/-- Witness for claim C7 at corner radius 20, inner radius 0, outer radius
100, angles 0 to 90. -/
theorem cornerRadius_clamped_witness :
    (getPercentValue (CornerRadiusSpec.absolute 20) (100 - 0) 0 true > 0
      ∧ |(0:ℚ) - 90| < 360)
    ∧ min (getPercentValue (CornerRadiusSpec.absolute 20) (100 - 0) 0 true)
        ((100 - 0) / 2) ≤ ((100:ℚ) - 0) / 2 :=
  ⟨⟨by norm_num [getPercentValue], by norm_num⟩,
   ((cornerRadius_clamped trigFlat
       ⟨0, 0, 0, 100, CornerRadiusSpec.absolute 20, false, 0, 90⟩
       (by norm_num) ⟨by norm_num [getPercentValue], by norm_num⟩).1).2⟩

/-- The sign function is -1 on negative inputs. -/
theorem mathSign_of_neg (x : ℚ) (h : x < 0) : mathSign x = -1 := by
  unfold mathSign
  rw [if_pos h]

/-- The sign function is 1 on positive inputs. -/
theorem mathSign_of_pos (x : ℚ) (h : 0 < x) : mathSign x = 1 := by
  unfold mathSign
  rw [if_neg (by linarith), if_pos h]

/-- The sign function is 0 on zero. -/
theorem mathSign_of_zero (x : ℚ) (h : x = 0) : mathSign x = 0 := by
  unfold mathSign
  rw [if_neg (by simp [h]), if_neg (by simp [h])]

/-- Re-normalizing the capped end angle is a fixed point: the delta angle
of `(startAngle, startAngle + getDeltaAngle startAngle endAngle)` is the
delta angle of `(startAngle, endAngle)`. -/
theorem getDeltaAngle_recap (s e : ℚ) :
    getDeltaAngle s (s + getDeltaAngle s e) = getDeltaAngle s e := by
  unfold getDeltaAngle
  have harg : s + mathSign (e - s) * min |e - s| (359999/1000) - s
      = mathSign (e - s) * min |e - s| (359999/1000) := by ring
  rw [harg]
  rcases lt_trichotomy (e - s) 0 with h | h | h
  · have hm : 0 < min |e - s| (359999/1000) :=
      lt_min (abs_pos.mpr (ne_of_lt h)) (by norm_num)
    rw [mathSign_of_neg _ h]
    have hneg : -1 * min |e - s| (359999/1000) < 0 := by linarith
    rw [mathSign_of_neg _ hneg]
    have habs : |(-1 : ℚ) * min |e - s| (359999/1000)| = min |e - s| (359999/1000) := by
      rw [abs_mul]
      simp [abs_of_pos hm]
    rw [habs, min_eq_left (min_le_right |e - s| (359999/1000))]
  · rw [mathSign_of_zero _ h]
    rw [zero_mul, mathSign_of_zero _ rfl, zero_mul]
  · have hm : 0 < min |e - s| (359999/1000) :=
      lt_min (abs_pos.mpr (ne_of_gt h)) (by norm_num)
    rw [mathSign_of_pos _ h]
    have hpos : 0 < 1 * min |e - s| (359999/1000) := by linarith
    rw [mathSign_of_pos _ hpos]
    have habs : |(1 : ℚ) * min |e - s| (359999/1000)| = min |e - s| (359999/1000) := by
      rw [abs_mul]
      simp [abs_of_pos hm]
    rw [habs, min_eq_left (min_le_right |e - s| (359999/1000))]

/-- Claim C8 (amended): the sharp-edge builder computes every arc from the
sign-preserved capped magnitude `min(|endAngle - startAngle|, 359.999)` —
equivalently, replacing `endAngle` by the capped `tempEndAngle` leaves its
output unchanged — while the rounded-edge builder's arc-span computations
use the raw, uncapped `|startAngle - endAngle|`. -/
theorem arc_magnitude_cap_sharp_only :
    (∀ s e : ℚ, getDeltaAngle s e = mathSign (e - s) * min |e - s| (359999/1000))
    ∧ (∀ (M : MathOps) (cx cy ir outr s e : ℚ),
        getSectorPath M cx cy ir outr s e
          = getSectorPath M cx cy ir outr s (s + getDeltaAngle s e))
    ∧ (∀ (M : MathOps) (cx cy outr cr s e : ℚ),
        outerArcAngle M cx cy outr cr s e
          = |s - e| - (outerStartTangent M cx cy outr cr s e).theta
              - (outerEndTangent M cx cy outr cr s e).theta)
    ∧ (∀ (M : MathOps) (cx cy ir cr s e : ℚ),
        innerArcAngle M cx cy ir cr s e
          = |s - e| - (innerStartTangent M cx cy ir cr s e).theta
              - (innerEndTangent M cx cy ir cr s e).theta) := by
  refine ⟨fun s e => rfl, fun M cx cy ir outr s e => ?_,
    fun M cx cy outr cr s e => rfl, fun M cx cy ir cr s e => rfl⟩
  simp only [getSectorPath, getDeltaAngle_recap]

/-- Counterexample to claim C8 as stated: with `startAngle 0`,
`endAngle 359.9995` and corner radius 10 the facade produces geometry
through the rounded-edge builder (the span is below 360), yet the
magnitude entering that builder's arc-span computation is the raw
359.9995 and not the capped `min(|endAngle - startAngle|, 359.999) =
359.999` that the claim requires of every arc computation. -/
theorem rounded_builder_uses_uncapped_span :
    (Sector.render trigFlat
        ⟨0, 0, 0, 100, CornerRadiusSpec.absolute 10, false, 0, 719999/2000⟩).isSome = true
    ∧ (getPercentValue (CornerRadiusSpec.absolute 10) ((100:ℚ) - 0) 0 true > 0
        ∧ |(0:ℚ) - 719999/2000| < 360)
    ∧ min (getPercentValue (CornerRadiusSpec.absolute 10) ((100:ℚ) - 0) 0 true)
        (((100:ℚ) - 0) / 2) = 10
    ∧ outerArcAngle trigFlat 0 0 100 10 0 (719999/2000) = 719999/2000
    ∧ getDeltaAngle 0 (719999/2000) = 359999/1000
    ∧ decide ((719999/2000 : ℚ) = 359999/1000) = false := by
  norm_num [Sector.render, getPercentValue, outerArcAngle, outerStartTangent,
    outerEndTangent, getTangentCircle, asinArg, trigFlat, mathSign,
    polarToCartesian, getDeltaAngle, min_def, abs_of_pos]

/-- The sharp-edge builder's output always ends with an explicit close. -/
theorem getSectorPath_ends_close (M : MathOps) (cx cy ir outr s e : ℚ) :
    (getSectorPath M cx cy ir outr s e).getLast? = some PathCmd.close := by
  unfold getSectorPath
  split_ifs <;> rfl

/-- Claim C9: every path the facade emits is a single closed contour — it
ends with an explicit close command, or (in the `forceCornerRadius`
full-circle fallback) its final arc endpoint coincides with the initial
move-to point, closing the contour implicitly. -/
theorem render_paths_closed (M : MathOps) (p : SectorProps) (path : List PathCmd)
    (h : Sector.render M p = some path) :
    path.getLast? = some PathCmd.close ∨ finalPoint path = contourStart path := by
  simp only [Sector.render] at h
  split_ifs at h with hg hd
  · rw [Option.some.injEq] at h
    subst h
    simp only [getSectorWithCorner]
    split_ifs with h1 h2 h3 h4
    · right
      simp only [finalPoint, contourStart, List.foldl, Option.map_some']
      have hpt : ∀ (q : Pt) (c : ℚ),
          (⟨q.x + c * 2 + -(c * 2), q.y + 0 + 0⟩ : Pt) = q := by
        intro q c
        cases q
        simp only [Pt.mk.injEq]
        constructor <;> ring
      rw [hpt]
    · exact Or.inl (getSectorPath_ends_close M p.cx p.cy p.innerRadius p.outerRadius
        p.startAngle p.endAngle)
    · left; rfl
    · left; rfl
    · left; rfl
  · rw [Option.some.injEq] at h
    subst h
    exact Or.inl (getSectorPath_ends_close M p.cx p.cy p.innerRadius p.outerRadius
      p.startAngle p.endAngle)

/-- Witness for claim C9 on a concrete rendered sector. -/
theorem render_paths_closed_witness :
    Sector.render trigFlat ⟨0, 0, 0, 100, CornerRadiusSpec.absolute 0, false, 0, 90⟩
        = some [PathCmd.move ⟨100, 0⟩,
            PathCmd.arc 100 100 0 false false ⟨100, 0⟩,
            PathCmd.line ⟨0, 0⟩, PathCmd.close]
    ∧ ([PathCmd.move ⟨100, 0⟩,
          PathCmd.arc 100 100 0 false false ⟨100, 0⟩,
          PathCmd.line ⟨0, 0⟩, PathCmd.close].getLast? = some PathCmd.close
        ∨ finalPoint [PathCmd.move ⟨100, 0⟩,
            PathCmd.arc 100 100 0 false false ⟨100, 0⟩,
            PathCmd.line ⟨0, 0⟩, PathCmd.close]
          = contourStart [PathCmd.move ⟨100, 0⟩,
              PathCmd.arc 100 100 0 false false ⟨100, 0⟩,
              PathCmd.line ⟨0, 0⟩, PathCmd.close]) :=
  ⟨by norm_num [Sector.render, getPercentValue, getSectorPath, getDeltaAngle,
      mathSign, polarToCartesian, trigFlat, min_def],
   render_paths_closed trigFlat
     ⟨0, 0, 0, 100, CornerRadiusSpec.absolute 0, false, 0, 90⟩ _
     (by norm_num [Sector.render, getPercentValue, getSectorPath, getDeltaAngle,
       mathSign, polarToCartesian, trigFlat, min_def])⟩

/-- Division `a / b` lies in the unit interval whenever `0 ≤ a ≤ b` (including the
degenerate `a = 0` case where the rational division by zero is zero). -/
theorem div_unit_interval (a b : ℚ) (ha : 0 ≤ a) (hab : a ≤ b) :
    0 ≤ a / b ∧ a / b ≤ 1 := by
  rcases eq_or_lt_of_le ha with h | h
  · rw [← h]
    simp
  · have hb : 0 < b := lt_of_lt_of_le h hab
    exact ⟨div_nonneg ha hb.le, (div_le_one hb).mpr hab⟩

/-- Claim C10: for inputs reaching the rounded-edge builder through the
facade with `0 <= innerRadius <= outerRadius` and a positive resolved
corner radius, the inverse-sine argument `cornerRadius / centerRadius` of
the tangent-circle solver lies in [0, 1] in all four solver calls (the two
outer calls, `isExternal` unset, and the two inner calls, `isExternal`
set), so the inverse sine is defined on this path. -/
theorem asin_argument_in_unit_interval (p : SectorProps)
    (h0 : 0 ≤ p.innerRadius) (h1 : p.innerRadius ≤ p.outerRadius)
    (h2 : getPercentValue p.cornerRadius (p.outerRadius - p.innerRadius) 0 true > 0) :
    ((0 ≤ asinArg ⟨p.cx, p.cy, p.outerRadius, p.startAngle,
          mathSign (p.endAngle - p.startAngle), false,
          min (getPercentValue p.cornerRadius (p.outerRadius - p.innerRadius) 0 true)
            ((p.outerRadius - p.innerRadius) / 2)⟩
        ∧ asinArg ⟨p.cx, p.cy, p.outerRadius, p.startAngle,
            mathSign (p.endAngle - p.startAngle), false,
            min (getPercentValue p.cornerRadius (p.outerRadius - p.innerRadius) 0 true)
              ((p.outerRadius - p.innerRadius) / 2)⟩ ≤ 1)
      ∧ (0 ≤ asinArg ⟨p.cx, p.cy, p.outerRadius, p.endAngle,
            -(mathSign (p.endAngle - p.startAngle)), false,
            min (getPercentValue p.cornerRadius (p.outerRadius - p.innerRadius) 0 true)
              ((p.outerRadius - p.innerRadius) / 2)⟩
          ∧ asinArg ⟨p.cx, p.cy, p.outerRadius, p.endAngle,
              -(mathSign (p.endAngle - p.startAngle)), false,
              min (getPercentValue p.cornerRadius (p.outerRadius - p.innerRadius) 0 true)
                ((p.outerRadius - p.innerRadius) / 2)⟩ ≤ 1))
    ∧ ((0 ≤ asinArg ⟨p.cx, p.cy, p.innerRadius, p.startAngle,
          mathSign (p.endAngle - p.startAngle), true,
          min (getPercentValue p.cornerRadius (p.outerRadius - p.innerRadius) 0 true)
            ((p.outerRadius - p.innerRadius) / 2)⟩
        ∧ asinArg ⟨p.cx, p.cy, p.innerRadius, p.startAngle,
            mathSign (p.endAngle - p.startAngle), true,
            min (getPercentValue p.cornerRadius (p.outerRadius - p.innerRadius) 0 true)
              ((p.outerRadius - p.innerRadius) / 2)⟩ ≤ 1)
      ∧ (0 ≤ asinArg ⟨p.cx, p.cy, p.innerRadius, p.endAngle,
            -(mathSign (p.endAngle - p.startAngle)), true,
            min (getPercentValue p.cornerRadius (p.outerRadius - p.innerRadius) 0 true)
              ((p.outerRadius - p.innerRadius) / 2)⟩
          ∧ asinArg ⟨p.cx, p.cy, p.innerRadius, p.endAngle,
              -(mathSign (p.endAngle - p.startAngle)), true,
              min (getPercentValue p.cornerRadius (p.outerRadius - p.innerRadius) 0 true)
                ((p.outerRadius - p.innerRadius) / 2)⟩ ≤ 1)) := by
  have hc0 : 0 ≤ min (getPercentValue p.cornerRadius (p.outerRadius - p.innerRadius) 0 true)
      ((p.outerRadius - p.innerRadius) / 2) :=
    le_min h2.le (by linarith)
  have hc2 : min (getPercentValue p.cornerRadius (p.outerRadius - p.innerRadius) 0 true)
      ((p.outerRadius - p.innerRadius) / 2) ≤ (p.outerRadius - p.innerRadius) / 2 :=
    min_le_right _ _
  simp only [asinArg, Bool.false_eq_true, if_false, if_true]
  set c := min (getPercentValue p.cornerRadius (p.outerRadius - p.innerRadius) 0 true)
    ((p.outerRadius - p.innerRadius) / 2) with hcdef
  have houter : c * -1 + p.outerRadius = p.outerRadius - c := by ring
  have hinner : c * 1 + p.innerRadius = c + p.innerRadius := by ring
  rw [houter, hinner]
  have ho := div_unit_interval c (p.outerRadius - c) hc0 (by linarith)
  have hi := div_unit_interval c (c + p.innerRadius) hc0 (by linarith)
  exact ⟨⟨ho, ho⟩, ⟨hi, hi⟩⟩

/-- Witness for claim C10 at inner radius 10, outer radius 100, corner
radius 20, angles 0 to 90. -/
theorem asin_argument_in_unit_interval_witness :
    ((0:ℚ) ≤ 10 ∧ (10:ℚ) ≤ 100
      ∧ getPercentValue (CornerRadiusSpec.absolute 20) ((100:ℚ) - 10) 0 true > 0)
    ∧ (0 ≤ asinArg ⟨0, 0, 100, 0, mathSign (90 - 0), false,
          min (getPercentValue (CornerRadiusSpec.absolute 20) (100 - 10) 0 true)
            ((100 - 10) / 2)⟩
        ∧ asinArg ⟨0, 0, 100, 0, mathSign (90 - 0), false,
            min (getPercentValue (CornerRadiusSpec.absolute 20) (100 - 10) 0 true)
              ((100 - 10) / 2)⟩ ≤ 1) :=
  ⟨⟨by norm_num, by norm_num, by norm_num [getPercentValue]⟩,
   ((asin_argument_in_unit_interval
       ⟨0, 0, 10, 100, CornerRadiusSpec.absolute 20, false, 0, 90⟩
       (by norm_num) (by norm_num) (by norm_num [getPercentValue])).1).1⟩
